import Mathlib

/-!
Verification of the system-parameter layer of `bevy_ecs`
(`src/crates/bevy_ecs/src/system/system_param.rs`).

The file shallowly embeds the registration-time access bookkeeping and the
invocation-time fetch behaviour of the resource system parameters.  The
access-tracking data structures (`Access`, `FilteredAccess`,
`FilteredAccessSet`), the per-system metadata (`SystemMeta`), the world-side
resource registry and the `Tick` comparison live in other modules of
`bevy_ecs` (`query/access.rs`, `system/mod.rs`, `world`, `component.rs`) that
are not part of the sources under study; those are modelled from the
specification, as marked on each definition.  Everything in the `system_param`
file itself (the `init_state` / `get_param` bodies of `Res`, `ResMut`, their
optional variants, `NonSend`, `NonSendMut`, `&World`, `Query`, and the
`assert_component_access_compatibility` checker) is translated directly from
that source.

Rust panics are modelled as `Except.error` carrying the panic message, built
from the same format strings as the source.  Resource values are modelled as
natural numbers; a Rust resource type `T` is identified by its type name
(a `String`), which is all that `init_state` observes about it.
-/

/-- Modelled from the spec: a stored resource value together with its
`added` / `changed` change timestamps (the slot data handed back by the
world's `get_resource_with_ticks`, which is outside the sources under
study). -/
structure ResourceData where
  value : Nat
  added : Nat
  changed : Nat
deriving DecidableEq, Repr

/-- Modelled from the spec: one resource slot of the store — a stable
integer identifier is its index in the world's slot list, `type_name` is the
human-readable name kept by the component metadata, and
`archetype_component_id` is the per-slot identifier used by the coarse
physical-overlap coordinate system. -/
structure ResourceSlot where
  type_name : String
  archetype_component_id : Nat
  data : Option ResourceData
deriving DecidableEq, Repr

/-- Modelled from the spec: the store.  Only the resource registry is
needed by the claims; `ComponentId` is the index into `resources`. -/
structure World where
  resources : List ResourceSlot
deriving DecidableEq, Repr

/-- Helper for `World.initialize_resource`: the index of the slot already
registered for a type name, if any. -/
def find_resource_index : List ResourceSlot → String → Option Nat
  | [], _ => none
  | s :: rest, t =>
    if s.type_name == t then some 0
    else (find_resource_index rest t).map (· + 1)

/-- Modelled from the spec: `World::initialize_resource::<T>` assigns a
stable integer identifier on first use and returns the existing one
afterwards; first use also creates the slot (with a fresh per-slot
archetype component identifier) holding no value yet. -/
def World.initialize_resource (w : World) (t : String) : World × Nat :=
  match find_resource_index w.resources t with
  | some i => (w, i)
  | none =>
    (⟨w.resources ++ [⟨t, w.resources.length, none⟩]⟩, w.resources.length)

/-- Modelled from the spec: the per-slot archetype component identifier used
for the coarse coordinate system (`World::get_resource_archetype_component_id`). -/
def World.get_resource_archetype_component_id (w : World) (cid : Nat) : Option Nat :=
  (w.resources[cid]?).map (·.archetype_component_id)

/-- Modelled from the spec: fetch a slot's current value plus its
added/changed timestamps (`World::get_resource_with_ticks`); `none` when the
slot holds no value or was never registered. -/
def World.get_resource_with_ticks (w : World) (cid : Nat) : Option ResourceData :=
  (w.resources[cid]?).bind (·.data)

/-- Modelled from the spec: the human-readable type name recorded for a slot
identifier (`world.components.get_info(id).name()`). -/
def World.component_name (w : World) (cid : Nat) : String :=
  ((w.resources[cid]?).map (·.type_name)).getD ""

/-- Modelled from the spec: the access set — which slots are read or
written, plus the `reads_all` sentinel for whole-store read borrows.
`reads_and_writes` records every touched slot (reads and writes alike),
`writes` only the written ones. -/
structure Access where
  reads_all : Bool
  reads_and_writes : List Nat
  writes : List Nat
deriving DecidableEq, Repr

def Access.empty : Access := ⟨false, [], []⟩

/-- Modelled from the spec: record a read; idempotent for repeated reads. -/
def Access.add_read (a : Access) (i : Nat) : Access :=
  { a with reads_and_writes := a.reads_and_writes.insert i }

/-- Modelled from the spec: record a write (a written slot is also touched). -/
def Access.add_write (a : Access) (i : Nat) : Access :=
  { a with
    reads_and_writes := a.reads_and_writes.insert i
    writes := a.writes.insert i }

/-- Modelled from the spec: is the slot touched (read or written) by this
access?  The `reads_all` sentinel touches everything. -/
def Access.has_read (a : Access) (i : Nat) : Bool :=
  a.reads_all || a.reads_and_writes.contains i

/-- Modelled from the spec: is the slot written by this access? -/
def Access.has_write (a : Access) (i : Nat) : Bool :=
  a.writes.contains i

/-- Modelled from the spec: the whole-store read sentinel (`read_all`). -/
def Access.read_all (a : Access) : Access :=
  { a with reads_all := true }

/-- Modelled from the spec: two accesses are compatible iff no slot is
written by one side and touched (read or written) by the other. -/
def Access.is_compatible (a b : Access) : Bool :=
  a.writes.all (fun i => !(b.has_read i)) && b.writes.all (fun i => !(a.has_read i))

/-- Modelled from the spec: the set of slots violating compatibility, used
to build diagnostic messages. -/
def Access.get_conflicts (a b : Access) : List Nat :=
  ((a.writes.filter fun i => b.has_read i) ++ (b.writes.filter fun i => a.has_read i)).dedup

/-- Modelled from the spec: union composition of two accesses. -/
def Access.extend (a b : Access) : Access :=
  { reads_all := a.reads_all || b.reads_all
    reads_and_writes := b.reads_and_writes.foldl (fun l i => l.insert i) a.reads_and_writes
    writes := b.writes.foldl (fun l i => l.insert i) a.writes }

/-- Modelled from the spec: the fine-grained footprint of one parameter — an
access plus the with/without filter context used for query disjointness. -/
structure FilteredAccess where
  access : Access
  with_filter : List Nat
  without_filter : List Nat
deriving DecidableEq, Repr

def FilteredAccess.empty : FilteredAccess := ⟨Access.empty, [], []⟩

/-- Modelled from the spec: the whole-store read sentinel on a filtered
footprint. -/
def FilteredAccess.read_all (f : FilteredAccess) : FilteredAccess :=
  { f with access := f.access.read_all }

/-- Modelled from the spec: two filtered footprints are compatible when
their accesses are, or when their filters prove them disjoint. -/
def FilteredAccess.is_compatible (a b : FilteredAccess) : Bool :=
  a.access.is_compatible b.access
    || a.with_filter.any (fun i => b.without_filter.contains i)
    || b.with_filter.any (fun i => a.without_filter.contains i)

/-- Modelled from the spec: the accumulated fine-grained footprint of a
system — all registered filtered accesses, plus their union for coarse
queries (`combined_access`). -/
structure FilteredAccessSet where
  combined_access : Access
  filtered_accesses : List FilteredAccess
deriving DecidableEq, Repr

def FilteredAccessSet.empty : FilteredAccessSet := ⟨Access.empty, []⟩

/-- Modelled from the spec: record a new filtered footprint into the
accumulator (union composition). -/
def FilteredAccessSet.add (s : FilteredAccessSet) (f : FilteredAccess) : FilteredAccessSet :=
  ⟨s.combined_access.extend f.access, s.filtered_accesses ++ [f]⟩

/-- Modelled from the spec: record an unfiltered read of a single slot. -/
def FilteredAccessSet.add_unfiltered_read (s : FilteredAccessSet) (i : Nat) : FilteredAccessSet :=
  s.add { FilteredAccess.empty with access := Access.empty.add_read i }

/-- Modelled from the spec: record an unfiltered write of a single slot. -/
def FilteredAccessSet.add_unfiltered_write (s : FilteredAccessSet) (i : Nat) : FilteredAccessSet :=
  s.add { FilteredAccess.empty with access := Access.empty.add_write i }

/-- Modelled from the spec: the slots on which a new filtered footprint
conflicts with the accumulated footprint (`get_conflicts_single`) — the
union, over every registered footprint not compatible with the new one, of
the access-level conflicts. -/
def FilteredAccessSet.get_conflicts_single (s : FilteredAccessSet) (f : FilteredAccess) : List Nat :=
  (s.filtered_accesses.flatMap fun g =>
    if g.is_compatible f then [] else g.access.get_conflicts f.access).dedup

/-- Modelled from the spec: the per-system accumulator — display name, the
fine footprint keyed by component identifiers, the coarse footprint keyed by
archetype component identifiers, the send flag (`false` once the system is
pinned to the designated execution context) and the last observed change
timestamp. -/
structure SystemMeta where
  name : String
  component_access_set : FilteredAccessSet
  archetype_component_access : Access
  is_send : Bool
  last_change_tick : Nat
deriving DecidableEq, Repr

/-- Modelled from the spec: mark the system as pinned to the single
designated execution context (`SystemMeta::set_non_send`). -/
def SystemMeta.set_non_send (m : SystemMeta) : SystemMeta :=
  { m with is_send := false }

/-- Modelled from the spec: a fresh system accumulator with an empty
footprint. -/
def SystemMeta.new (name : String) : SystemMeta :=
  ⟨name, FilteredAccessSet.empty, Access.empty, true, 0⟩

/-- Modelled from the spec: the maximum timestamp age still inside the valid
detection window (ages beyond it are clamped so wraparound cannot make an
old value look fresh). -/
def MAX_CHANGE_AGE : Nat := 4294967295 - (2 * 518400000 - 1)

/-- Modelled from the spec: the wraparound-correct timestamp comparison
(`Tick::is_older_than`, defined in the component module, outside the sources
under study): the tick is newer than `last_change_tick` relative to
`change_tick` iff its clamped age is smaller than the clamped age of
`last_change_tick`, ages being computed by wrapping 32-bit subtraction from
`change_tick`.  All ticks are 32-bit values (naturals below 2^32). -/
def Tick.is_older_than (tick last_change_tick change_tick : Nat) : Bool :=
  let ticks_since_insert := min ((change_tick + 4294967296 - tick) % 4294967296) MAX_CHANGE_AGE
  let ticks_since_system :=
    min ((change_tick + 4294967296 - last_change_tick) % 4294967296) MAX_CHANGE_AGE
  ticks_since_insert < ticks_since_system

/-- The `Res` handle (`system_param.rs` lines 418-424): a borrow of the
slot's value plus the two slot timestamps and the system's tick pair.  The
borrowed value is modelled by the value itself. -/
structure Res where
  value : Nat
  added : Nat
  changed : Nat
  last_change_tick : Nat
  change_tick : Nat
deriving DecidableEq, Repr

/-- `Res::is_added` (`system_param.rs` lines 449-452). -/
def Res.is_added (r : Res) : Bool :=
  Tick.is_older_than r.added r.last_change_tick r.change_tick

/-- `Res::is_changed` (`system_param.rs` lines 455-458). -/
def Res.is_changed (r : Res) : Bool :=
  Tick.is_older_than r.changed r.last_change_tick r.change_tick

/-- Modelled from the spec: the tick bundle carried by an exclusive handle
(`Ticks` from the change-detection module, outside the sources under study;
its shape — added, changed, last_change_tick, change_tick — is visible at
the construction sites in `system_param.rs` lines 641-648). -/
structure Ticks where
  added : Nat
  changed : Nat
  last_change_tick : Nat
  change_tick : Nat
deriving DecidableEq, Repr

/-- Modelled from the spec: the exclusive `ResMut` handle (defined in the
change-detection module, outside the sources under study; constructed in
`system_param.rs` lines 641-649 as a value plus a `Ticks` bundle). -/
structure ResMut where
  value : Nat
  ticks : Ticks
deriving DecidableEq, Repr

/-- Modelled from the spec: change observation on the exclusive handle —
the same timestamp test as on the read handle, applied to its tick bundle. -/
def ResMut.is_added (m : ResMut) : Bool :=
  Tick.is_older_than m.ticks.added m.ticks.last_change_tick m.ticks.change_tick

/-- Modelled from the spec: see `ResMut.is_added`. -/
def ResMut.is_changed (m : ResMut) : Bool :=
  Tick.is_older_than m.ticks.changed m.ticks.last_change_tick m.ticks.change_tick

/-- `From<ResMut> for Res` (`system_param.rs` lines 480-490): downgrade an
exclusive handle to a read handle, copying the value and all four ticks. -/
def Res.from_res_mut (m : ResMut) : Res :=
  { value := m.value
    added := m.ticks.added
    changed := m.ticks.changed
    change_tick := m.ticks.change_tick
    last_change_tick := m.ticks.last_change_tick }

/-- `Res::init_state` (`system_param.rs` lines 513-534): resolve the slot
identifier, panic if the accumulated footprint already writes it, then
record the read on both coordinate systems.  The panic message is built from
the same format string as the source. -/
def Res.init_state (t : String) (w : World) (meta : SystemMeta) :
    Except String (World × SystemMeta × Nat) :=
  let wr := w.initialize_resource t
  let w1 := wr.1
  let component_id := wr.2
  let combined_access := meta.component_access_set.combined_access
  if combined_access.has_write component_id then
    .error ("error[B0002]: Res<" ++ t ++ "> in system " ++ meta.name ++
      " conflicts with a previous ResMut<" ++ t ++
      "> access. Consider removing the duplicate access.")
  else
    let meta1 := { meta with
      component_access_set := meta.component_access_set.add_unfiltered_read component_id }
    match w1.get_resource_archetype_component_id component_id with
    | none => .error "called Option.unwrap on a None value"
    | some archetype_component_id =>
      .ok (w1,
        { meta1 with archetype_component_access :=
            meta1.archetype_component_access.add_read archetype_component_id },
        component_id)

/-- `Res::get_param` (`system_param.rs` lines 537-559): dereference the live
slot, panicking with a message naming the system and the resource type when
the slot holds no value. -/
def Res.get_param (t : String) (component_id : Nat) (meta : SystemMeta) (w : World)
    (change_tick : Nat) : Except String Res :=
  match w.get_resource_with_ticks component_id with
  | none =>
    .error ("Resource requested by " ++ meta.name ++ " does not exist: " ++ t)
  | some d =>
    .ok { value := d.value, added := d.added, changed := d.changed
          last_change_tick := meta.last_change_tick, change_tick := change_tick }

/-- `Option<Res>::init_state` (`system_param.rs` lines 570-572): delegates
to `Res::init_state`. -/
def OptionRes.init_state (t : String) (w : World) (meta : SystemMeta) :
    Except String (World × SystemMeta × Nat) :=
  Res.init_state t w meta

/-- `Option<Res>::get_param` (`system_param.rs` lines 574-590): the missing
slot becomes `none` instead of a panic. -/
def OptionRes.get_param (component_id : Nat) (meta : SystemMeta) (w : World)
    (change_tick : Nat) : Option Res :=
  (w.get_resource_with_ticks component_id).map fun d =>
    { value := d.value, added := d.added, changed := d.changed
      last_change_tick := meta.last_change_tick, change_tick := change_tick }

/-- `ResMut::init_state` (`system_param.rs` lines 599-623): resolve the slot
identifier; panic if the accumulated footprint already writes the slot
(message naming a previous `ResMut` access) or already reads it (message
naming a previous `Res` access); otherwise record the write on both
coordinate systems. -/
def ResMut.init_state (t : String) (w : World) (meta : SystemMeta) :
    Except String (World × SystemMeta × Nat) :=
  let wr := w.initialize_resource t
  let w1 := wr.1
  let component_id := wr.2
  let combined_access := meta.component_access_set.combined_access
  if combined_access.has_write component_id then
    .error ("error[B0002]: ResMut<" ++ t ++ "> in system " ++ meta.name ++
      " conflicts with a previous ResMut<" ++ t ++
      "> access. Consider removing the duplicate access.")
  else if combined_access.has_read component_id then
    .error ("error[B0002]: ResMut<" ++ t ++ "> in system " ++ meta.name ++
      " conflicts with a previous Res<" ++ t ++
      "> access. Consider removing the duplicate access.")
  else
    let meta1 := { meta with
      component_access_set := meta.component_access_set.add_unfiltered_write component_id }
    match w1.get_resource_archetype_component_id component_id with
    | none => .error "called Option.unwrap on a None value"
    | some archetype_component_id =>
      .ok (w1,
        { meta1 with archetype_component_access :=
            meta1.archetype_component_access.add_write archetype_component_id },
        component_id)

/-- `ResMut::get_param` (`system_param.rs` lines 626-650): dereference the
live slot mutably, panicking with a message naming the system and the
resource type when the slot holds no value. -/
def ResMut.get_param (t : String) (component_id : Nat) (meta : SystemMeta) (w : World)
    (change_tick : Nat) : Except String ResMut :=
  match w.get_resource_with_ticks component_id with
  | none =>
    .error ("Resource requested by " ++ meta.name ++ " does not exist: " ++ t)
  | some d =>
    .ok { value := d.value
          ticks := { added := d.added, changed := d.changed
                     last_change_tick := meta.last_change_tick, change_tick := change_tick } }

/-- `Option<ResMut>::init_state` (`system_param.rs` lines 658-660):
delegates to `ResMut::init_state`. -/
def OptionResMut.init_state (t : String) (w : World) (meta : SystemMeta) :
    Except String (World × SystemMeta × Nat) :=
  ResMut.init_state t w meta

/-- `Option<ResMut>::get_param` (`system_param.rs` lines 663-680): the
missing slot becomes `none` instead of a panic. -/
def OptionResMut.get_param (component_id : Nat) (meta : SystemMeta) (w : World)
    (change_tick : Nat) : Option ResMut :=
  (w.get_resource_with_ticks component_id).map fun d =>
    { value := d.value
      ticks := { added := d.added, changed := d.changed
                 last_change_tick := meta.last_change_tick, change_tick := change_tick } }

/-- `<&World as SystemParam>::init_state` (`system_param.rs` lines 722-744):
build a whole-store read sentinel; panic if it is incompatible with the
accumulated coarse footprint, else fold it in; then the same on the fine
coordinate system via the conflict query; on success both coordinate systems
carry the sentinel. -/
def WorldRef.init_state (meta : SystemMeta) : Except String SystemMeta :=
  let access := Access.empty.read_all
  if !(meta.archetype_component_access.is_compatible access) then
    .error "&World conflicts with a previous mutable system parameter. Allowing this would break Rust\x27s mutability rules"
  else
    let meta1 := { meta with
      archetype_component_access := meta.archetype_component_access.extend access }
    let filtered_access := FilteredAccess.empty.read_all
    if !(meta1.component_access_set.get_conflicts_single filtered_access).isEmpty then
      .error "&World conflicts with a previous mutable system parameter. Allowing this would break Rust\x27s mutability rules"
    else
      .ok { meta1 with
        component_access_set := meta1.component_access_set.add filtered_access }

/-- `assert_component_access_compatibility` (`system_param.rs` lines
236-255): compute the conflicts of the new query footprint against the
accumulated footprint; return normally when there are none, otherwise panic
with a diagnostic naming the query and filter types, the system, and the
human-readable names of the conflicting slots, suggesting `ParamSet`. -/
def assert_component_access_compatibility (system_name query_type filter_type : String)
    (system_access : FilteredAccessSet) (current : FilteredAccess) (w : World) :
    Except String Unit :=
  let conflicts := system_access.get_conflicts_single current
  if conflicts.isEmpty then .ok ()
  else
    let conflicting_components := conflicts.map fun component_id => w.component_name component_id
    let accesses := String.intercalate ", " conflicting_components
    .error ("error[B0001]: Query<" ++ query_type ++ ", " ++ filter_type ++ "> in system " ++
      system_name ++ " accesses component(s) " ++ accesses ++
      " in a way that conflicts with a previous system parameter. Consider using `Without<T>` to create disjoint Queries or merging conflicting Queries into a `ParamSet`.")

/-- `<Query as SystemParam>::init_state` (`system_param.rs` lines 193-210):
run the conflict check on the query's fine footprint, then record the fine
footprint into the component access set and the coarse footprint into the
archetype component access.  The query state derived from the type arguments
is represented by its two footprints. -/
def Query.init_state (query_type filter_type : String) (component_access : FilteredAccess)
    (archetype_component_access : Access) (w : World) (meta : SystemMeta) :
    Except String SystemMeta :=
  match assert_component_access_compatibility meta.name query_type filter_type
      meta.component_access_set component_access w with
  | .error e => .error e
  | .ok _ =>
    .ok { meta with
      component_access_set := meta.component_access_set.add component_access
      archetype_component_access :=
        meta.archetype_component_access.extend archetype_component_access }

/-- `NonSend::init_state` (`system_param.rs` lines 1031-1054): first pin the
system to the designated execution context, then resolve the slot, panic on
a previous write, and record the read on both coordinate systems.  The
non-send resource registry shares the identifier space with the send one. -/
def NonSend.init_state (t : String) (w : World) (meta : SystemMeta) :
    Except String (World × SystemMeta × Nat) :=
  let meta0 := meta.set_non_send
  let wr := w.initialize_resource t
  let w1 := wr.1
  let component_id := wr.2
  let combined_access := meta0.component_access_set.combined_access
  if combined_access.has_write component_id then
    .error ("error[B0002]: NonSend<" ++ t ++ "> in system " ++ meta0.name ++
      " conflicts with a previous mutable resource access (" ++ t ++
      "). Consider removing the duplicate access.")
  else
    let meta1 := { meta0 with
      component_access_set := meta0.component_access_set.add_unfiltered_read component_id }
    match w1.get_resource_archetype_component_id component_id with
    | none => .error "called Option.unwrap on a None value"
    | some archetype_component_id =>
      .ok (w1,
        { meta1 with archetype_component_access :=
            meta1.archetype_component_access.add_read archetype_component_id },
        component_id)

/-- `NonSendMut::init_state` (`system_param.rs` lines 1118-1144): first pin
the system to the designated execution context, then resolve the slot, panic
on a previous write or read, and record the write on both coordinate
systems. -/
def NonSendMut.init_state (t : String) (w : World) (meta : SystemMeta) :
    Except String (World × SystemMeta × Nat) :=
  let meta0 := meta.set_non_send
  let wr := w.initialize_resource t
  let w1 := wr.1
  let component_id := wr.2
  let combined_access := meta0.component_access_set.combined_access
  if combined_access.has_write component_id then
    .error ("error[B0002]: NonSendMut<" ++ t ++ "> in system " ++ meta0.name ++
      " conflicts with a previous mutable resource access (" ++ t ++
      "). Consider removing the duplicate access.")
  else if combined_access.has_read component_id then
    .error ("error[B0002]: NonSendMut<" ++ t ++ "> in system " ++ meta0.name ++
      " conflicts with a previous immutable resource access (" ++ t ++
      "). Consider removing the duplicate access.")
  else
    let meta1 := { meta0 with
      component_access_set := meta0.component_access_set.add_unfiltered_write component_id }
    match w1.get_resource_archetype_component_id component_id with
    | none => .error "called Option.unwrap on a None value"
    | some archetype_component_id =>
      .ok (w1,
        { meta1 with archetype_component_access :=
            meta1.archetype_component_access.add_write archetype_component_id },
        component_id)

/-- The system-parameter kinds implemented in `system_param.rs` (one
constructor per `SystemParam` impl relevant to the read-only marker). -/
inductive ParamKind
  | res
  | option_res
  | res_mut
  | option_res_mut
  | commands
  | world_ref
  | local_param
  | removed_components
  | non_send
  | option_non_send
  | non_send_mut
  | option_non_send_mut
  | system_change_tick
  | system_name_param
deriving DecidableEq, Repr

/-- Which parameter kinds carry a `ReadOnlySystemParam` impl in
`system_param.rs` (lines 505, 563, 684, 715, 806, 933, 980, 1110, 1308,
1398).  Note the impl for the exclusive non-send handle at line 1110. -/
def ParamKind.claims_read_only : ParamKind → Bool
  | .res => true
  | .option_res => true
  | .res_mut => false
  | .option_res_mut => false
  | .commands => true
  | .world_ref => true
  | .local_param => true
  | .removed_components => true
  | .non_send => true
  | .option_non_send => false
  | .non_send_mut => true
  | .option_non_send_mut => false
  | .system_change_tick => true
  | .system_name_param => true

/-- Which parameter kinds hand out a handle capable of mutating store data,
read off the `get_param` bodies in `system_param.rs`: the exclusive resource
handles are built from unique mutable borrows of the slot (lines 632-649,
669-679, 1162-1165, 1186-1190); every other kind yields only immutable
access to store data (`Commands` merely queues deferred records and `Local`
mutates only its own private state, not the store). -/
def ParamKind.yields_mutable_store_access : ParamKind → Bool
  | .res_mut => true
  | .option_res_mut => true
  | .non_send_mut => true
  | .option_non_send_mut => true
  | _ => false

theorem find_resource_index_lt {l : List ResourceSlot} {t : String} {i : Nat}
    (h : find_resource_index l t = some i) : i < l.length := by
  induction l generalizing i with
  | nil => simp [find_resource_index] at h
  | cons s rest ih =>
    simp only [find_resource_index] at h
    split at h
    · cases h
      simp
    · cases hr : find_resource_index rest t with
      | none => rw [hr] at h; simp at h
      | some j =>
        rw [hr] at h
        simp at h
        have := ih hr
        simp only [List.length_cons]
        omega

/-- After `initialize_resource`, the returned slot identifier always has an
archetype component identifier. -/
theorem initialize_resource_archetype_id (w : World) (t : String) :
    ∃ aid, (w.initialize_resource t).1.get_resource_archetype_component_id
      (w.initialize_resource t).2 = some aid := by
  unfold World.initialize_resource
  cases h : find_resource_index w.resources t with
  | some i =>
    have hi := find_resource_index_lt h
    refine ⟨(w.resources[i]).archetype_component_id, ?_⟩
    simp [World.get_resource_archetype_component_id, List.getElem?_eq_getElem hi]
  | none =>
    refine ⟨w.resources.length, ?_⟩
    simp [World.get_resource_archetype_component_id]

/-- Claim C1: registering an exclusive (`ResMut`) handle for a slot whose
identifier the accumulated footprint already writes fails at build time with
the diagnostic naming the resource type (twice) and the system; registering
it when the accumulated footprint already reads the slot likewise fails with
the diagnostic naming the resource type and the system.  In both cases
`init_state` returns the error without recording the new access. -/
theorem res_mut_init_state_write_conflicts (t : String) (w : World) (meta : SystemMeta) :
    (meta.component_access_set.combined_access.has_write (w.initialize_resource t).2 = true →
      ResMut.init_state t w meta =
        .error ("error[B0002]: ResMut<" ++ t ++ "> in system " ++ meta.name ++
          " conflicts with a previous ResMut<" ++ t ++
          "> access. Consider removing the duplicate access.")) ∧
    (meta.component_access_set.combined_access.has_write (w.initialize_resource t).2 = false →
      meta.component_access_set.combined_access.has_read (w.initialize_resource t).2 = true →
      ResMut.init_state t w meta =
        .error ("error[B0002]: ResMut<" ++ t ++ "> in system " ++ meta.name ++
          " conflicts with a previous Res<" ++ t ++
          "> access. Consider removing the duplicate access.")) := by
  constructor
  · intro h
    simp [ResMut.init_state, h]
  · intro h1 h2
    simp [ResMut.init_state, h1, h2]

/-- Witness for C1: a system that already wrote slot `R` and declares
`ResMut<R>` again fails with the double-write diagnostic. -/
theorem res_mut_init_state_write_conflicts_witness :
    ResMut.init_state "R" ⟨[]⟩
      ⟨"sys", FilteredAccessSet.empty.add_unfiltered_write 0, Access.empty.add_write 0, true, 0⟩ =
      .error ("error[B0002]: ResMut<" ++ "R" ++ "> in system " ++
        (SystemMeta.mk "sys" (FilteredAccessSet.empty.add_unfiltered_write 0)
          (Access.empty.add_write 0) true 0).name ++
        " conflicts with a previous ResMut<" ++ "R" ++
        "> access. Consider removing the duplicate access.") :=
  (res_mut_init_state_write_conflicts "R" ⟨[]⟩
    ⟨"sys", FilteredAccessSet.empty.add_unfiltered_write 0, Access.empty.add_write 0, true, 0⟩).1
    (by decide)

/-- Claim C2: registering a read (`Res`) handle for a slot that the
accumulated footprint does not write (in particular, when it only reads it)
succeeds, and the accumulated footprint after success is the union of the
old footprint with the new read: the slot's component identifier is added as
an unfiltered read to the component access set and the slot's archetype
component identifier as a read to the archetype component access. -/
theorem res_init_state_read_accumulates (t : String) (w : World) (meta : SystemMeta)
    (aid : Nat)
    (haid : (w.initialize_resource t).1.get_resource_archetype_component_id
      (w.initialize_resource t).2 = some aid)
    (h : meta.component_access_set.combined_access.has_write
      (w.initialize_resource t).2 = false) :
    Res.init_state t w meta =
      .ok ((w.initialize_resource t).1,
        { meta with
          component_access_set :=
            meta.component_access_set.add_unfiltered_read (w.initialize_resource t).2
          archetype_component_access :=
            meta.archetype_component_access.add_read aid },
        (w.initialize_resource t).2) := by
  simp [Res.init_state, h, haid]

/-- Witness for C2: a system that already reads slot `R` and declares
`Res<R>` again builds successfully, with the repeated read unioned into the
footprint. -/
theorem res_init_state_read_accumulates_witness :
    Res.init_state "R" ⟨[⟨"R", 0, none⟩]⟩
      ⟨"sys", FilteredAccessSet.empty.add_unfiltered_read 0, Access.empty.add_read 0, true, 0⟩ =
      .ok (⟨[⟨"R", 0, none⟩]⟩,
        ⟨"sys", (FilteredAccessSet.empty.add_unfiltered_read 0).add_unfiltered_read 0,
          (Access.empty.add_read 0).add_read 0, true, 0⟩, 0) :=
  res_init_state_read_accumulates "R" ⟨[⟨"R", 0, none⟩]⟩
    ⟨"sys", FilteredAccessSet.empty.add_unfiltered_read 0, Access.empty.add_read 0, true, 0⟩
    0 (by rfl) (by decide)

/-- Claim C4 concerns the read-only marker capability: `system_param.rs`
line 1110 declares the exclusive non-send handle `NonSendMut` read-only,
while its `get_param` (lines 1146-1166) builds the handle from a unique
mutable borrow of the slot, contradicting the marker's contract (lines
170-174) and the impl's own safety comment.  This theorem evaluates the
marker table and the mutation table of the source at that kind. -/
theorem read_only_marker_violated_by_non_send_mut :
    ParamKind.claims_read_only ParamKind.non_send_mut = true ∧
    ParamKind.yields_mutable_store_access ParamKind.non_send_mut = true := by
  decide

/-- Claim C8: downgrading an exclusive handle to a read handle preserves the
value, both slot timestamps and both system ticks exactly, so `is_added`,
`is_changed` and the dereferenced value agree between the two handles. -/
theorem exclusive_downgrade_preserves (m : ResMut) :
    (Res.from_res_mut m).value = m.value ∧
    (Res.from_res_mut m).added = m.ticks.added ∧
    (Res.from_res_mut m).changed = m.ticks.changed ∧
    (Res.from_res_mut m).last_change_tick = m.ticks.last_change_tick ∧
    (Res.from_res_mut m).change_tick = m.ticks.change_tick ∧
    (Res.from_res_mut m).is_added = m.is_added ∧
    (Res.from_res_mut m).is_changed = m.is_changed :=
  ⟨rfl, rfl, rfl, rfl, rfl, rfl, rfl⟩

/-- Claim C10: the optional resource parameters register exactly like their
non-optional counterparts — `Option<Res>::init_state` is
`Res::init_state` and `Option<ResMut>::init_state` is `ResMut::init_state`,
so the declared footprint and the build-time conflict behaviour coincide;
only the invocation-time fetch differs. -/
theorem optional_init_state_matches (t : String) (w : World) (meta : SystemMeta) :
    OptionRes.init_state t w meta = Res.init_state t w meta ∧
    OptionResMut.init_state t w meta = ResMut.init_state t w meta :=
  ⟨rfl, rfl⟩

/-- Claim C3: the registration-time conflict check inside the query
parameter's `init_state` computes the conflicts of the new footprint against
the accumulated set; when that set is empty the new fine footprint is
recorded into the accumulator (and the coarse footprint unioned in) and the
build step returns normally; otherwise it fails with the diagnostic that
names the system, the query and filter types, and the human-readable names
of the offending slots resolved through the store's metadata, suggesting
`ParamSet` as the fix. -/
theorem query_init_state_conflict_check (query_type filter_type : String)
    (component_access : FilteredAccess) (archetype_component_access : Access)
    (w : World) (meta : SystemMeta) :
    ((meta.component_access_set.get_conflicts_single component_access).isEmpty = true →
      Query.init_state query_type filter_type component_access archetype_component_access
          w meta =
        .ok { meta with
          component_access_set := meta.component_access_set.add component_access
          archetype_component_access :=
            meta.archetype_component_access.extend archetype_component_access }) ∧
    ((meta.component_access_set.get_conflicts_single component_access).isEmpty = false →
      Query.init_state query_type filter_type component_access archetype_component_access
          w meta =
        .error ("error[B0001]: Query<" ++ query_type ++ ", " ++ filter_type ++
          "> in system " ++ meta.name ++ " accesses component(s) " ++
          String.intercalate ", "
            ((meta.component_access_set.get_conflicts_single component_access).map
              fun component_id => w.component_name component_id) ++
          " in a way that conflicts with a previous system parameter. Consider using `Without<T>` to create disjoint Queries or merging conflicting Queries into a `ParamSet`.")) := by
  constructor
  · intro h
    simp [Query.init_state, assert_component_access_compatibility, h]
  · intro h
    simp [Query.init_state, assert_component_access_compatibility, h]

/-- Witness for C3: a query reading slot 0 in a system that already wrote
slot 0 fails with the diagnostic resolving slot 0 to its name `R`. -/
theorem query_init_state_conflict_check_witness :
    Query.init_state "&R" "()"
      { FilteredAccess.empty with access := Access.empty.add_read 0 }
      (Access.empty.add_read 0) ⟨[⟨"R", 0, none⟩]⟩
      ⟨"sys", FilteredAccessSet.empty.add_unfiltered_write 0, Access.empty.add_write 0,
        true, 0⟩ =
      .error ("error[B0001]: Query<" ++ "&R" ++ ", " ++ "()" ++ "> in system " ++
        (SystemMeta.mk "sys" (FilteredAccessSet.empty.add_unfiltered_write 0)
          (Access.empty.add_write 0) true 0).name ++ " accesses component(s) " ++
        String.intercalate ", "
          (((SystemMeta.mk "sys" (FilteredAccessSet.empty.add_unfiltered_write 0)
              (Access.empty.add_write 0) true
              0).component_access_set.get_conflicts_single
            { FilteredAccess.empty with access := Access.empty.add_read 0 }).map
            fun component_id => World.component_name ⟨[⟨"R", 0, none⟩]⟩ component_id) ++
        " in a way that conflicts with a previous system parameter. Consider using `Without<T>` to create disjoint Queries or merging conflicting Queries into a `ParamSet`.") :=
  (query_init_state_conflict_check "&R" "()"
    { FilteredAccess.empty with access := Access.empty.add_read 0 }
    (Access.empty.add_read 0) ⟨[⟨"R", 0, none⟩]⟩
    ⟨"sys", FilteredAccessSet.empty.add_unfiltered_write 0, Access.empty.add_write 0,
      true, 0⟩).2 (by decide)

/-- Claim C5: fetching a non-optional resource handle (`Res` or `ResMut`)
for a slot holding no value is an invocation-time failure whose message
names the system and the resource type, while the optional variants yield
`none` for the same slot; when the slot holds a value, all four variants
yield a handle carrying that value and its timestamps. -/
theorem resource_fetch_missing_slot (t : String) (component_id : Nat) (meta : SystemMeta)
    (w : World) (change_tick : Nat) :
    (w.get_resource_with_ticks component_id = none →
      Res.get_param t component_id meta w change_tick =
        .error ("Resource requested by " ++ meta.name ++ " does not exist: " ++ t) ∧
      OptionRes.get_param component_id meta w change_tick = none ∧
      ResMut.get_param t component_id meta w change_tick =
        .error ("Resource requested by " ++ meta.name ++ " does not exist: " ++ t) ∧
      OptionResMut.get_param component_id meta w change_tick = none) ∧
    (∀ d, w.get_resource_with_ticks component_id = some d →
      Res.get_param t component_id meta w change_tick =
        .ok ⟨d.value, d.added, d.changed, meta.last_change_tick, change_tick⟩ ∧
      OptionRes.get_param component_id meta w change_tick =
        some ⟨d.value, d.added, d.changed, meta.last_change_tick, change_tick⟩ ∧
      ResMut.get_param t component_id meta w change_tick =
        .ok ⟨d.value, ⟨d.added, d.changed, meta.last_change_tick, change_tick⟩⟩ ∧
      OptionResMut.get_param component_id meta w change_tick =
        some ⟨d.value, ⟨d.added, d.changed, meta.last_change_tick, change_tick⟩⟩) := by
  constructor
  · intro h
    simp [Res.get_param, OptionRes.get_param, ResMut.get_param, OptionResMut.get_param, h]
  · intro d h
    simp [Res.get_param, OptionRes.get_param, ResMut.get_param, OptionResMut.get_param, h]

/-- Witness for C5: in an empty store, fetching slot 0 fails for `Res` and
`ResMut` and yields `none` for both optional variants. -/
theorem resource_fetch_missing_slot_witness :
    Res.get_param "R" 0 (SystemMeta.new "sys") ⟨[]⟩ 7 =
      .error ("Resource requested by " ++ (SystemMeta.new "sys").name ++
        " does not exist: " ++ "R") ∧
    OptionRes.get_param 0 (SystemMeta.new "sys") ⟨[]⟩ 7 = none ∧
    ResMut.get_param "R" 0 (SystemMeta.new "sys") ⟨[]⟩ 7 =
      .error ("Resource requested by " ++ (SystemMeta.new "sys").name ++
        " does not exist: " ++ "R") ∧
    OptionResMut.get_param 0 (SystemMeta.new "sys") ⟨[]⟩ 7 = none :=
  (resource_fetch_missing_slot "R" 0 (SystemMeta.new "sys") ⟨[]⟩ 7).1 (by rfl)

theorem all_false_of_ne_nil {l : List Nat} (h : l ≠ []) :
    (l.all fun _ => false) = false := by
  cases l with
  | nil => exact absurd rfl h
  | cons x xs => simp

theorem flatMap_conflicts_nil {l : List FilteredAccess} {f : FilteredAccess}
    (h : ∀ g ∈ l, g.is_compatible f = true) :
    (l.flatMap fun g =>
      if g.is_compatible f then [] else g.access.get_conflicts f.access) = [] := by
  induction l with
  | nil => rfl
  | cons g rest ih =>
    have hg : g.is_compatible f = true := h g (by simp)
    simp only [List.flatMap_cons, hg, if_pos]
    simpa using ih fun g hg => h g (by simp [hg])

/-- Counterexample to claim C6 as stated: a system whose accumulated
footprint is non-empty — it already holds a plain read of slot 0 on both
coordinate systems — still registers the `&World` parameter successfully:
the whole-store read sentinel conflicts only with writes, not with prior
reads. -/
theorem world_ref_read_footprint_counterexample :
    (SystemMeta.mk "sys" (FilteredAccessSet.empty.add_unfiltered_read 0)
      (Access.empty.add_read 0) true 0).component_access_set.filtered_accesses ≠ [] ∧
    WorldRef.init_state
      (SystemMeta.mk "sys" (FilteredAccessSet.empty.add_unfiltered_read 0)
        (Access.empty.add_read 0) true 0) =
      .ok { SystemMeta.mk "sys" (FilteredAccessSet.empty.add_unfiltered_read 0)
          (Access.empty.add_read 0) true 0 with
        archetype_component_access :=
          (Access.empty.add_read 0).extend Access.empty.read_all
        component_access_set :=
          (FilteredAccessSet.empty.add_unfiltered_read 0).add
            FilteredAccess.empty.read_all } :=
  ⟨by decide, by rfl⟩

/-- Claim C6, amended: registering the `&World` parameter (whose
`init_state` sets the whole-store read sentinel on both coordinate systems)
fails at build time when the accumulated footprint contains any write, and
succeeds — recording the sentinel on both coordinate systems — when the
accumulated footprint contains no write (in particular when it is empty or
read-only). -/
theorem world_ref_init_state_write_sensitivity (meta : SystemMeta) :
    (meta.archetype_component_access.writes ≠ [] →
      WorldRef.init_state meta =
        .error "&World conflicts with a previous mutable system parameter. Allowing this would break Rust\x27s mutability rules") ∧
    (meta.archetype_component_access.writes = [] →
      (∀ g ∈ meta.component_access_set.filtered_accesses, g.access.writes = []) →
      WorldRef.init_state meta =
        .ok { meta with
          archetype_component_access :=
            meta.archetype_component_access.extend Access.empty.read_all
          component_access_set :=
            meta.component_access_set.add FilteredAccess.empty.read_all }) := by
  constructor
  · intro h
    have hcomp : meta.archetype_component_access.is_compatible Access.empty.read_all
        = false := by
      simp only [Access.is_compatible, Access.has_read, Access.read_all, Access.empty,
        Bool.true_or, Bool.not_true, List.all_nil, Bool.and_true]
      exact all_false_of_ne_nil h
    simp [WorldRef.init_state, hcomp]
  · intro h1 h2
    have hcomp : meta.archetype_component_access.is_compatible Access.empty.read_all
        = true := by
      simp [Access.is_compatible, Access.has_read, Access.read_all, Access.empty, h1]
    have hconf : ∀ g ∈ meta.component_access_set.filtered_accesses,
        g.is_compatible FilteredAccess.empty.read_all = true := by
      intro g hg
      have := h2 g hg
      simp [FilteredAccess.is_compatible, FilteredAccess.read_all, FilteredAccess.empty,
        Access.is_compatible, Access.has_read, Access.read_all, Access.empty, this]
    have hnil := flatMap_conflicts_nil hconf
    simp [WorldRef.init_state, hcomp, FilteredAccessSet.get_conflicts_single, hnil]

/-- Witness for the amended C6: a system that already wrote slot 0 cannot
also take `&World`. -/
theorem world_ref_init_state_write_sensitivity_witness :
    WorldRef.init_state
      (SystemMeta.mk "sys" (FilteredAccessSet.empty.add_unfiltered_write 0)
        (Access.empty.add_write 0) true 0) =
      .error "&World conflicts with a previous mutable system parameter. Allowing this would break Rust\x27s mutability rules" :=
  (world_ref_init_state_write_sensitivity
    (SystemMeta.mk "sys" (FilteredAccessSet.empty.add_unfiltered_write 0)
      (Access.empty.add_write 0) true 0)).1 (by decide)

/-- Claim C7: with `last_change_tick < change_tick` and the tick distance
inside the valid detection window, a timestamp inside the window makes
`is_changed` true exactly when it is newer than `last_change_tick`; a
timestamp at `last_change_tick` or older gives false; at the boundary,
`changed = last_change_tick` gives false and
`changed = last_change_tick + 1` gives true; `is_added` is the same test on
the `added` timestamp. -/
theorem res_change_detection_window (r : Res)
    (h1 : r.last_change_tick < r.change_tick) (h2 : r.change_tick < 4294967296)
    (h3 : r.change_tick - r.last_change_tick ≤ MAX_CHANGE_AGE) :
    (∀ c, r.last_change_tick ≤ c → c ≤ r.change_tick →
      (Tick.is_older_than c r.last_change_tick r.change_tick = true ↔
        r.last_change_tick < c)) ∧
    (∀ c, c ≤ r.last_change_tick →
      Tick.is_older_than c r.last_change_tick r.change_tick = false) ∧
    (r.changed = r.last_change_tick → r.is_changed = false) ∧
    (r.changed = r.last_change_tick + 1 → r.is_changed = true) ∧
    (r.last_change_tick ≤ r.changed → r.changed ≤ r.change_tick →
      (r.is_changed = true ↔ r.last_change_tick < r.changed)) ∧
    (r.last_change_tick ≤ r.added → r.added ≤ r.change_tick →
      (r.is_added = true ↔ r.last_change_tick < r.added)) := by
  have key : ∀ c, c ≤ r.change_tick →
      Tick.is_older_than c r.last_change_tick r.change_tick = decide (r.last_change_tick < c) := by
    intro c hc
    have hM : MAX_CHANGE_AGE = 3258167296 := by decide
    have e1 : (r.change_tick + 4294967296 - c) % 4294967296 = r.change_tick - c := by
      omega
    have e2 : (r.change_tick + 4294967296 - r.last_change_tick) % 4294967296 =
        r.change_tick - r.last_change_tick := by
      omega
    simp only [Tick.is_older_than, e1, e2]
    rw [decide_eq_decide]
    omega
  refine ⟨fun c hc1 hc2 => ?_, fun c hc => ?_, fun hb => ?_, fun hb => ?_,
    fun hc1 hc2 => ?_, fun hc1 hc2 => ?_⟩
  · rw [key c hc2]
    simp
  · rw [key c (le_trans hc (le_of_lt h1))]
    simp
    omega
  · simp only [Res.is_changed]
    rw [hb, key r.last_change_tick (le_of_lt h1)]
    simp
  · simp only [Res.is_changed]
    rw [hb, key (r.last_change_tick + 1) h1]
    simp
  · simp only [Res.is_changed]
    rw [key r.changed hc2]
    simp
  · simp only [Res.is_added]
    rw [key r.added hc2]
    simp

/-- Witness for C7: with `last_change_tick = 1` and `change_tick = 3`, a
slot changed at tick 2 is reported changed. -/
theorem res_change_detection_window_witness :
    Res.is_changed ⟨0, 1, 2, 1, 3⟩ = true :=
  (res_change_detection_window ⟨0, 1, 2, 1, 3⟩ (by decide) (by decide)
    (by decide)).2.2.2.1 (by decide)

/-- Claim C9: the non-shareable-resource parameters pin the system to the
designated execution context — whenever `NonSend::init_state` or
`NonSendMut::init_state` returns successfully, the resulting system
metadata carries `is_send = false`. -/
theorem non_send_params_pin_system (t : String) (w : World) (meta : SystemMeta) :
    (∀ w1 meta1 cid, NonSend.init_state t w meta = .ok (w1, meta1, cid) →
      meta1.is_send = false) ∧
    (∀ w1 meta1 cid, NonSendMut.init_state t w meta = .ok (w1, meta1, cid) →
      meta1.is_send = false) := by
  constructor
  · intro w1 meta1 cid h
    simp only [NonSend.init_state] at h
    split at h
    · exact absurd h (by simp)
    · split at h
      · exact absurd h (by simp)
      · simp only [Except.ok.injEq, Prod.mk.injEq] at h
        obtain ⟨-, hmeta, -⟩ := h
        subst hmeta
        rfl
  · intro w1 meta1 cid h
    simp only [NonSendMut.init_state] at h
    split at h
    · exact absurd h (by simp)
    · split at h
      · exact absurd h (by simp)
      · split at h
        · exact absurd h (by simp)
        · simp only [Except.ok.injEq, Prod.mk.injEq] at h
          obtain ⟨-, hmeta, -⟩ := h
          subst hmeta
          rfl

/-- Witness for C9: building a system with one `NonSend` parameter yields
metadata with the pin flag set. -/
theorem non_send_params_pin_system_witness :
    SystemMeta.is_send
      ⟨"sys", FilteredAccessSet.empty.add_unfiltered_read 0, Access.empty.add_read 0,
        false, 0⟩ = false :=
  (non_send_params_pin_system "NS" ⟨[]⟩ (SystemMeta.new "sys")).1
    ⟨[⟨"NS", 0, none⟩]⟩
    ⟨"sys", FilteredAccessSet.empty.add_unfiltered_read 0, Access.empty.add_read 0,
      false, 0⟩ 0 (by rfl)
